import Mathlib

/-!
Verification development for the native keep-alive framework
(`fw_socket.cpp`, `fw_daemon.cpp`).

The C sources are shallowly embedded: pure address computations become
functions on byte lists, syscall outcomes (socket/bind/listen/connect,
send/recv results, select timeouts, fork and system return codes) become
explicit oracle parameters, and the global mutable state becomes explicit
state records threaded through the functions. The monitoring and
receive loops are driven by a finite list of per-iteration observations,
one list element per iteration in which the loop's running flag was
observed true.
-/

namespace KeepLive

/-! ## Socket addresses (fw_socket.cpp lines 71-150)

`create_socket_server` stores the socket path with
`snprintf(g_socket_path, sizeof(g_socket_path), "\0%s", socket_name)`.
The C string literal `"\0%s"` contains an embedded NUL at position 0, so
as a format string it is empty: `snprintf` writes only a terminating NUL
byte and the statically zero-initialised 256-byte buffer stays all
zeros. The subsequent `memcpy(addr.sun_path, g_socket_path,
strlen(socket_name) + 1)` therefore copies `strlen(name) + 1` zero
bytes into `sun_path`, and the server binds the abstract address made of
`strlen(name) + 1` NUL bytes.

`connect_socket_server` instead writes `sun_path[0] = '\0'` followed by
`strcpy(addr.sun_path + 1, socket_name)`, so the client connects to the
abstract address `\0` followed by the bytes of the name.

Names are modelled as the byte list of the C string (no interior NULs,
so `strlen` is the list length). -/

/-- Byte list of a Lean string, used to write concrete C-string inputs. -/
def strBytes (s : String) : List Nat := s.data.map Char.toNat

/-- Content of the global `g_socket_path` buffer after the `snprintf`
call of `create_socket_server`: the format literal is truncated at its
embedded NUL, so nothing of `name` is written and the 256-byte
zero-initialised buffer stays all zeros. -/
def serverSavedSocketPath (_name : List Nat) : List Nat :=
  List.replicate 256 0

/-- The `sun_path` bytes the server binds: the first `strlen(name) + 1`
bytes memcpy-ed out of `g_socket_path` (fw_socket.cpp lines 92-96). -/
def serverBoundSunPath (name : List Nat) : List Nat :=
  (serverSavedSocketPath name).take (name.length + 1)

/-- The `sun_path` bytes the client connects to: a leading NUL byte
followed by the name, with address length `offsetof + strlen(name) + 1`
(fw_socket.cpp lines 136-141). -/
def clientSunPath (name : List Nat) : List Nat :=
  0 :: name

/-- Model of `connect_socket_server` (fw_socket.cpp lines 118-150):
rejects a null/empty name, fails when `socket()` fails (oracle
`sockRes < 0`) or when `connect` fails (oracle `connectOk = false`);
on success returns the connected descriptor. -/
def connect_socket_server (name : List Nat) (sockRes : Int)
    (connectOk : Bool) : Int :=
  if name.length = 0 then -1
  else if sockRes < 0 then -1
  else if connectOk then sockRes else -1

/-! ## Receive with timeout and heartbeat primitives
(fw_socket.cpp lines 155-204) -/

/-- Outcome of one `select` + `recv` round inside
`receive_with_timeout`, as observed from the OS: `select` timed out,
`select` failed, `recv` returned 0 (orderly close by the peer), `recv`
failed, or `recv` delivered `n + 1` bytes of data. -/
inductive RecvOutcome where
  | timeout
  | selectErr
  | closed
  | recvErr
  | data (n : Nat)
deriving DecidableEq

/-- Model of `receive_with_timeout` (fw_socket.cpp lines 171-204):
guards against an invalid descriptor or buffer size, then returns -1 on
a `select` error, 0 on timeout, -1 when `recv` returns 0 (peer closed)
or fails, and the (positive) byte count on delivered data. -/
def receive_with_timeout (socket_fd : Int) (buffer_size : Int)
    (o : RecvOutcome) : Int :=
  if socket_fd < 0 ∨ buffer_size ≤ 0 then -1
  else
    match o with
    | RecvOutcome.timeout => 0
    | RecvOutcome.selectErr => -1
    | RecvOutcome.closed => -1
    | RecvOutcome.recvErr => -1
    | RecvOutcome.data n => Int.ofNat n + 1

/-- Model of `send_heartbeat` (fw_socket.cpp lines 155-166): false for
a negative descriptor, otherwise true exactly when the `send` result
(oracle `sendRes`) is positive. -/
def send_heartbeat (socket_fd : Int) (sendRes : Int) : Bool :=
  if socket_fd < 0 then false
  else if sendRes ≤ 0 then false
  else true

/-! ## Server accept/receive loop (fw_socket.cpp lines 211-262)

The inner per-peer loop of `socket_server_thread` is driven by a list of
receive outcomes, one per iteration in which `g_socket_running` was
observed true. `received < 0` breaks out of the loop, after which the
peer socket is closed and the outer loop returns to accepting;
`received > 0` answers with the `"OK"` acknowledgement; `received = 0`
(timeout) does nothing and the loop re-enters `receive_with_timeout` on
the same peer. -/

/-- Result of one per-peer receive loop: the index of the outcome on
which the server dropped the peer (closed its socket), if any, and the
number of acknowledgements sent. -/
structure PeerRun where
  dropIdx : Option Nat
  replies : Nat
deriving DecidableEq

/-- Model of the inner receive loop of `socket_server_thread`
(fw_socket.cpp lines 244-257), with the 64-byte buffer and 5000 ms
timeout of the source. -/
def serverPeerLoop (client_fd : Int) : List RecvOutcome → PeerRun
  | [] => { dropIdx := none, replies := 0 }
  | o :: rest =>
    let received := receive_with_timeout client_fd 64 o
    if received < 0 then { dropIdx := some 0, replies := 0 }
    else
      let pr := serverPeerLoop client_fd rest
      { dropIdx := pr.dropIdx.map (· + 1),
        replies := (if 0 < received then 1 else 0) + pr.replies }

/-- Model of the outer accept loop of `socket_server_thread`
(fw_socket.cpp lines 215-258): each accepted connection is handed to the
per-peer loop, the peer socket is closed when that loop ends, and the
thread returns to accepting; a lost peer never ends the thread itself. -/
def socket_server_thread (client_fd : Int) :
    List (List RecvOutcome) → List PeerRun
  | [] => []
  | conn :: rest =>
    serverPeerLoop client_fd conn :: socket_server_thread client_fd rest

/-- Index of the first receive outcome whose `receive_with_timeout`
result is negative. Stated from the spec's words for the amended peer
loss condition, to be compared with `serverPeerLoop`. -/
def firstNegRecvIdx (client_fd : Int) : List RecvOutcome → Option Nat
  | [] => none
  | o :: rest =>
    if receive_with_timeout client_fd 64 o < 0 then some 0
    else (firstNegRecvIdx client_fd rest).map (· + 1)

/-! ## Server start and globals (fw_socket.cpp lines 267-290) -/

/-- Socket-side global state: `g_server_socket`, `g_client_socket`,
`g_socket_running`, plus an auxiliary count of threads created by
`pthread_create`, used to state the no-duplicate-thread property. -/
structure SocketGlobals where
  serverSocket : Int
  clientSocket : Int
  socketRunning : Bool
  threadsCreated : Nat
deriving DecidableEq

/-- OS oracles for `create_socket_server` and
`start_socket_server_thread`: the `socket()` result, whether `bind` and
`listen` succeed, and the `pthread_create` return code. -/
structure SockOS where
  socketRes : Int
  bindOk : Bool
  listenOk : Bool
  threadCreateRes : Int
deriving DecidableEq

/-- Model of `create_socket_server` (fw_socket.cpp lines 71-113):
rejects a null/empty name, stores the `socket()` result in
`g_server_socket` and fails if it is negative, resets the descriptor to
-1 and fails when `bind` or `listen` fail, otherwise returns the
listening descriptor. -/
def create_socket_server (s : SocketGlobals) (name : List Nat)
    (os : SockOS) : Int × SocketGlobals :=
  if name.length = 0 then (-1, s)
  else
    let s1 := { s with serverSocket := os.socketRes }
    if os.socketRes < 0 then (-1, s1)
    else if os.bindOk = false then (-1, { s1 with serverSocket := -1 })
    else if os.listenOk = false then (-1, { s1 with serverSocket := -1 })
    else (os.socketRes, s1)

/-- Model of `start_socket_server_thread` (fw_socket.cpp lines
267-290): returns true immediately when `g_socket_running` is already
set, otherwise creates the server socket, sets the running flag, spawns
the server thread, and on `pthread_create` failure rolls back the flag
and the socket. -/
def start_socket_server_thread (s : SocketGlobals) (name : List Nat)
    (os : SockOS) : Bool × SocketGlobals :=
  if s.socketRunning then (true, s)
  else
    let fd_s := create_socket_server s name os
    if fd_s.1 < 0 then (false, fd_s.2)
    else
      let s2 := { fd_s.2 with socketRunning := true }
      if os.threadCreateRes ≠ 0 then
        (false, { s2 with socketRunning := false, serverSocket := -1 })
      else
        (true, { s2 with threadsCreated := s2.threadsCreated + 1 })

/-! ## Heartbeat client (fw_socket.cpp lines 319-363) -/

/-- One iteration of the heartbeat-client loop as observed from the OS:
the `send` result for the heartbeat and the receive outcome while
waiting for the acknowledgement. -/
structure HbCycle where
  sendRes : Int
  recvOutcome : RecvOutcome
deriving DecidableEq

/-- Result of the heartbeat-client loop: how many times the registered
connection-lost callback was invoked, and whether the loop exited via
`break` (heartbeat failure path). -/
structure ClientRun where
  callbacks : Nat
  exitedViaBreak : Bool
deriving DecidableEq

/-- Model of the heartbeat loop inside `start_heartbeat_client`
(fw_socket.cpp lines 338-360), driven by one `HbCycle` per iteration in
which `g_client_socket` was observed non-negative. On a failed send, or
on a negative `receive_with_timeout` result, the loop invokes the
loss callback when one is registered and breaks; otherwise it sleeps
and continues. A receive result of 0 (timeout) takes neither branch. -/
def heartbeatLoop (client_fd : Int) (cbRegistered : Bool) :
    List HbCycle → ClientRun
  | [] => { callbacks := 0, exitedViaBreak := false }
  | c :: rest =>
    if send_heartbeat client_fd c.sendRes = false then
      { callbacks := if cbRegistered then 1 else 0, exitedViaBreak := true }
    else if receive_with_timeout client_fd 64 c.recvOutcome < 0 then
      { callbacks := if cbRegistered then 1 else 0, exitedViaBreak := true }
    else heartbeatLoop client_fd cbRegistered rest

/-- Predicate on a client cycle: the cycle takes one of the two failure
branches of the heartbeat loop (send failure, or negative receive
result). Stated from the spec's words for the amended loss condition. -/
def hbCycleFails (client_fd : Int) (c : HbCycle) : Bool :=
  !(send_heartbeat client_fd c.sendRes) ||
    decide (receive_with_timeout client_fd 64 c.recvOutcome < 0)

/-- Model of `start_heartbeat_client` (fw_socket.cpp lines 329-363):
returns false when the initial `connect_socket_server` fails; otherwise
runs the heartbeat loop on the connected descriptor and returns true
when the loop terminates, whatever made it terminate. -/
def start_heartbeat_client (name : List Nat) (sockRes : Int)
    (connectOk : Bool) (cbRegistered : Bool) (cycles : List HbCycle) :
    Bool × ClientRun :=
  let fd := connect_socket_server name sockRes connectOk
  if fd < 0 then (false, { callbacks := 0, exitedViaBreak := false })
  else (true, heartbeatLoop fd cbRegistered cycles)

/-! ## Liveness prober (fw_daemon.cpp lines 66-84) -/

/-- Model of `is_process_alive` (fw_daemon.cpp lines 66-84): a
non-positive pid is rejected before any syscall; otherwise the function
returns true when the `/proc/[pid]` metadata entry exists and is a
directory (oracle `procDirExists`), or, failing that, when `kill(pid,
0)` returns 0 (oracle `killZeroOk`). -/
def is_process_alive (pid : Int) (procDirExists killZeroOk : Bool) : Bool :=
  if pid ≤ 0 then false
  else if procDirExists then true
  else if killZeroOk then true
  else false

/-! ## Reactivation strategy chain (fw_daemon.cpp lines 97-158) -/

/-- The external activation commands the daemon can shell out to:
`am startservice`, `am start-foreground-service`, and `am broadcast`. -/
inductive AmCmd where
  | amStartService
  | amStartForegroundService
  | amBroadcast
deriving DecidableEq

/-- Model of `start_service_via_am` (fw_daemon.cpp lines 97-133): runs
`am startservice` (oracle exit status `plainRet`); on a non-zero status
retries once with `am start-foreground-service` (oracle `fgRet`).
Returns whether either command exited 0, together with the list of
commands issued, in order. -/
def start_service_via_am (plainRet fgRet : Int) : Bool × List AmCmd :=
  if plainRet = 0 then (true, [AmCmd.amStartService])
  else if fgRet = 0 then
    (true, [AmCmd.amStartService, AmCmd.amStartForegroundService])
  else (false, [AmCmd.amStartService, AmCmd.amStartForegroundService])

/-- Model of `start_via_broadcast` (fw_daemon.cpp lines 141-158): sends
the `NATIVE_WAKEUP` broadcast (oracle exit status `bRet`) and reports
whether it exited 0. -/
def start_via_broadcast (bRet : Int) : Bool × List AmCmd :=
  (decide (bRet = 0), [AmCmd.amBroadcast])

/-- One reactivation round of the daemon loop (fw_daemon.cpp lines
187-201): when `use_am_command` is set, try `start_service_via_am`
first; only when that strategy reported failure (or was disabled), fall
back to `start_via_broadcast`. Returns the round's success and the
commands issued, in order. -/
def reactivationRound (useAm : Bool) (plainRet fgRet bRet : Int) :
    Bool × List AmCmd :=
  let am := if useAm then start_service_via_am plainRet fgRet
            else (false, [])
  if am.1 then (true, am.2)
  else
    let bc := start_via_broadcast bRet
    (bc.1, am.2 ++ bc.2)

/-! ## Daemon monitoring loop (fw_daemon.cpp lines 167-228) -/

/-- The `max_consecutive_failures` constant of `daemon_main_loop`
(fw_daemon.cpp line 177). -/
def maxConsecutiveFailures : Nat := 3

/-- OS observations for one iteration of the daemon loop: whether the
parent process is found alive, and the exit statuses of the three
activation commands (consulted only when the parent is dead). -/
structure DaemonCycle where
  parentAlive : Bool
  amPlainRet : Int
  amFgRet : Int
  broadcastRet : Int
deriving DecidableEq

/-- Effect of one daemon-loop iteration on the consecutive-failure
counter, and whether the iteration breaks out of the loop. -/
structure CycleEffect where
  failures : Nat
  brk : Bool
deriving DecidableEq

/-- One iteration of `daemon_main_loop` (fw_daemon.cpp lines 179-225):
a live parent resets the counter; a dead parent triggers the
reactivation round, whose success also resets the counter (after a
settle sleep); a failed round increments the counter and breaks the
loop once it reaches `max_consecutive_failures`. -/
def daemonCycleStep (useAm : Bool) (failures : Nat) (c : DaemonCycle) :
    CycleEffect :=
  if c.parentAlive then { failures := 0, brk := false }
  else if (reactivationRound useAm c.amPlainRet c.amFgRet c.broadcastRet).1
  then { failures := 0, brk := false }
  else if maxConsecutiveFailures ≤ failures + 1 then
    { failures := failures + 1, brk := true }
  else { failures := failures + 1, brk := false }

/-- Result of a run of the daemon loop: iterations executed, final
consecutive-failure counter, and whether the loop exited via the
max-failures `break` (gave up) rather than by exhausting the run. -/
structure LoopResult where
  cycles : Nat
  failures : Nat
  gaveUp : Bool
deriving DecidableEq

/-- The `while (g_daemon_running)` loop of `daemon_main_loop`
(fw_daemon.cpp lines 179-225), driven by one `DaemonCycle` per
iteration in which the running flag was observed true. -/
def daemonLoop (useAm : Bool) (failures : Nat) :
    List DaemonCycle → LoopResult
  | [] => { cycles := 0, failures := failures, gaveUp := false }
  | c :: rest =>
    let e := daemonCycleStep useAm failures c
    if e.brk then { cycles := 1, failures := e.failures, gaveUp := true }
    else
      let r := daemonLoop useAm e.failures rest
      { cycles := r.cycles + 1, failures := r.failures, gaveUp := r.gaveUp }

/-- Model of `daemon_main_loop` (fw_daemon.cpp lines 167-228) as seen
from the `g_daemon_running` flag: the loop body never assigns the flag,
so the function returns it unchanged next to the loop result; with the
flag initially false the loop body never runs. -/
def daemon_main_loop (gDaemonRunning : Bool) (useAm : Bool)
    (cycles : List DaemonCycle) : Bool × LoopResult :=
  if gDaemonRunning then (gDaemonRunning, daemonLoop useAm 0 cycles)
  else (gDaemonRunning, { cycles := 0, failures := 0, gaveUp := false })

/-! ## Daemon start/stop/query (fw_daemon.cpp lines 238-316) -/

/-- The `DaemonConfig` globals of fw_daemon.cpp lines 47-55, with the C
strings as byte lists. -/
structure DaemonConfig where
  packageName : List Nat
  serviceName : List Nat
  checkIntervalMs : Int
  parentPid : Int
  useAmCommand : Bool
  useSocket : Bool
deriving DecidableEq

/-- Daemon-side global state as the parent process sees it:
`g_daemon_running`, `g_config`, plus an auxiliary count of daemon child
processes successfully forked, used to state the no-duplicate-process
property. -/
structure DaemonGlobals where
  daemonRunning : Bool
  config : DaemonConfig
  childrenForked : Nat
deriving DecidableEq

/-- Model of `start_daemon` (fw_daemon.cpp lines 238-301), parent-side
view: returns 0 at once when `g_daemon_running` is already set; else
stores the configuration (strings truncated by `strncpy` to the buffer
sizes, interval defaulted when non-positive, `use_am_command` set,
`use_socket` cleared), then forks (oracle `forkRes`): a negative fork
result returns -1 with no child created, otherwise the parent returns 0
and one daemon child exists. -/
def start_daemon (g : DaemonGlobals) (package_name service_name : List Nat)
    (check_interval_ms : Int) (selfPid : Int) (forkRes : Int) :
    Int × DaemonGlobals :=
  if g.daemonRunning then (0, g)
  else
    let cfg : DaemonConfig :=
      { packageName := package_name.take 255,
        serviceName := service_name.take 511,
        checkIntervalMs :=
          if check_interval_ms > 0 then check_interval_ms else 3000,
        parentPid := selfPid,
        useAmCommand := true,
        useSocket := false }
    if forkRes < 0 then (-1, { g with config := cfg })
    else (0, { g with config := cfg,
                      childrenForked := g.childrenForked + 1 })

/-- Model of `stop_daemon` (fw_daemon.cpp lines 306-309): clears the
running flag of whichever process runs it. -/
def stop_daemon (_gDaemonRunning : Bool) : Bool := false

/-- Model of `is_daemon_running` (fw_daemon.cpp lines 314-316): reads
the `g_daemon_running` flag. -/
def is_daemon_running (gDaemonRunning : Bool) : Bool := gDaemonRunning

/-! ## Claim theorems -/

/-- C1: the claim says the abstract address bound by
`create_socket_server` for a name equals the address
`connect_socket_server` connects to for the same name. In the code the
server-side `snprintf` format literal is truncated at its embedded NUL,
so the server binds an all-zero abstract address while the client
connects to the NUL-prefixed name: at the spec's own scenario name
`wd_sock_1` the two addresses differ, so the client can never reach the
server. -/
theorem C1_addr_mismatch :
    serverBoundSunPath (strBytes "wd_sock_1") ≠
      clientSunPath (strBytes "wd_sock_1") := by
  decide

/-- C3, counterexample: a run in which the loop gives up after the
maximum number of consecutive failures leaves the running flag true, so
`is_daemon_running` reports true, not false as the claim states. -/
theorem C3_flag_counterexample :
    (daemon_main_loop true true
      [⟨false, 1, 1, 1⟩, ⟨false, 1, 1, 1⟩, ⟨false, 1, 1, 1⟩]).2.gaveUp = true ∧
    is_daemon_running (daemon_main_loop true true
      [⟨false, 1, 1, 1⟩, ⟨false, 1, 1, 1⟩, ⟨false, 1, 1, 1⟩]).1 = true := by
  decide

/-- C3, amended: when the loop terminates because the
consecutive-failure counter reached the maximum, the `break` leaves the
running flag unchanged — still true — so `is_daemon_running` returns
true in the monitoring process after the loop has given up; only
`stop_daemon` clears the flag. -/
theorem C3_flag_unchanged : ∀ (useAm : Bool) (cycles : List DaemonCycle),
    (daemon_main_loop true useAm cycles).2.gaveUp = true →
    is_daemon_running (daemon_main_loop true useAm cycles).1 = true := by
  intro useAm cycles _h
  simp [daemon_main_loop, is_daemon_running]

/-- Witness for C3: the amended theorem applied to a concrete run that
gives up after three failed cycles. -/
theorem C3_flag_unchanged_witness :
    is_daemon_running (daemon_main_loop true true
      [⟨false, 1, 1, 1⟩, ⟨false, 1, 1, 1⟩, ⟨false, 1, 1, 1⟩]).1 = true :=
  C3_flag_unchanged true
    [⟨false, 1, 1, 1⟩, ⟨false, 1, 1, 1⟩, ⟨false, 1, 1, 1⟩] (by decide)

/-- C4: `is_process_alive` returns false for every non-positive pid
whatever the two OS checks would report (so no OS call can influence
the result), and for every positive pid it returns true exactly when
the `/proc` metadata check or the `kill(pid, 0)` check succeeds — the
two checks are OR-combined. -/
theorem C4_prober_or_semantics : ∀ (pid : Int) (procDirExists killZeroOk : Bool),
    (pid ≤ 0 → is_process_alive pid procDirExists killZeroOk = false) ∧
    (0 < pid → (is_process_alive pid procDirExists killZeroOk = true ↔
      (procDirExists = true ∨ killZeroOk = true))) := by
  intro pid a b
  constructor
  · intro h
    simp [is_process_alive, h]
  · intro h
    have h2 : ¬ pid ≤ 0 := by omega
    cases a <;> cases b <;> simp [is_process_alive, h2]

/-- Witness for C4 at pid -1 (fast reject) and pid 7 with only the
signal check succeeding. -/
theorem C4_prober_witness :
    is_process_alive (-1) true true = false ∧
    (is_process_alive 7 false true = true ↔ (false = true ∨ true = true)) :=
  ⟨(C4_prober_or_semantics (-1) true true).1 (by decide),
   (C4_prober_or_semantics 7 false true).2 (by decide)⟩

/-- C8: starting while already running is idempotent — with
`g_daemon_running` set, `start_daemon` returns 0 and leaves the state
(including the count of forked children) untouched; with
`g_socket_running` set, `start_socket_server_thread` returns true and
leaves the state (including the count of created threads) untouched.
The first start also returns success: with the flag clear, a
successful fork makes `start_daemon` return 0, and with the flag clear
and all socket syscalls succeeding `start_socket_server_thread`
returns true. -/
theorem C8_idempotent_start :
    (∀ (g : DaemonGlobals) (pkg svc : List Nat) (iv selfPid forkRes : Int),
      g.daemonRunning = true →
      start_daemon g pkg svc iv selfPid forkRes = (0, g)) ∧
    (∀ (s : SocketGlobals) (name : List Nat) (os : SockOS),
      s.socketRunning = true →
      start_socket_server_thread s name os = (true, s)) ∧
    (∀ (g : DaemonGlobals) (pkg svc : List Nat) (iv selfPid forkRes : Int),
      g.daemonRunning = false → 0 ≤ forkRes →
      (start_daemon g pkg svc iv selfPid forkRes).1 = 0) ∧
    (∀ (s : SocketGlobals) (name : List Nat) (os : SockOS),
      s.socketRunning = false → name.length ≠ 0 → 0 ≤ os.socketRes →
      os.bindOk = true → os.listenOk = true → os.threadCreateRes = 0 →
      (start_socket_server_thread s name os).1 = true) := by
  refine ⟨?_, ?_, ?_, ?_⟩
  · intro g pkg svc iv selfPid forkRes h
    simp [start_daemon, h]
  · intro s name os h
    simp [start_socket_server_thread, h]
  · intro g pkg svc iv selfPid forkRes h hf
    have : ¬ forkRes < 0 := by omega
    simp [start_daemon, h, this]
  · intro s name os h hn hs hb hl ht
    have h1 : ¬ os.socketRes < 0 := by omega
    simp [start_socket_server_thread, create_socket_server, h, hn, h1, hb, hl, ht]

/-- Witness for C8: both idempotent calls and both first-start calls at
concrete states and oracles. -/
theorem C8_idempotent_start_witness :
    start_daemon ⟨true, ⟨[], [], 3000, 1, true, false⟩, 1⟩ [] [] 5 1 2 =
      (0, ⟨true, ⟨[], [], 3000, 1, true, false⟩, 1⟩) ∧
    start_socket_server_thread ⟨5, -1, true, 1⟩ [97] ⟨4, true, true, 0⟩ =
      (true, ⟨5, -1, true, 1⟩) ∧
    (start_daemon ⟨false, ⟨[], [], 3000, 1, true, false⟩, 0⟩ [] [] 5 1 2).1 = 0 ∧
    (start_socket_server_thread ⟨-1, -1, false, 0⟩ [97] ⟨4, true, true, 0⟩).1 = true :=
  ⟨C8_idempotent_start.1 ⟨true, ⟨[], [], 3000, 1, true, false⟩, 1⟩ [] [] 5 1 2 rfl,
   C8_idempotent_start.2.1 ⟨5, -1, true, 1⟩ [97] ⟨4, true, true, 0⟩ rfl,
   C8_idempotent_start.2.2.1 ⟨false, ⟨[], [], 3000, 1, true, false⟩, 0⟩ [] [] 5 1 2
     rfl (by decide),
   C8_idempotent_start.2.2.2 ⟨-1, -1, false, 0⟩ [97] ⟨4, true, true, 0⟩
     rfl (by decide) (by decide) rfl rfl rfl⟩

/-- C9: `start_heartbeat_client` returns false exactly when the initial
connection fails, and its return value does not depend on what happens
inside the heartbeat loop — whenever the connection succeeded and the
loop terminated, it returns true, even when the loop exited because a
send failed or the connection was lost. -/
theorem C9_client_return : ∀ (name : List Nat) (sockRes : Int)
    (connectOk cbRegistered : Bool),
    (∀ cycles,
      ((start_heartbeat_client name sockRes connectOk cbRegistered cycles).1 = false ↔
        connect_socket_server name sockRes connectOk < 0)) ∧
    (∀ cycles cycles2,
      (start_heartbeat_client name sockRes connectOk cbRegistered cycles).1 =
        (start_heartbeat_client name sockRes connectOk cbRegistered cycles2).1) := by
  intro name sockRes connectOk cb
  constructor
  · intro cycles
    by_cases h : connect_socket_server name sockRes connectOk < 0 <;>
      simp [start_heartbeat_client, h]
  · intro c1 c2
    by_cases h : connect_socket_server name sockRes connectOk < 0 <;>
      simp [start_heartbeat_client, h]

/-- C10: `start_daemon`, when it stores the configuration (the
already-running guard not taken, which in the parent process is every
call since only the forked child ever sets the flag), stores 3000 ms
for every non-positive `check_interval_ms` argument and the argument
itself for every positive one. -/
theorem C10_default_interval : ∀ (g : DaemonGlobals)
    (pkg svc : List Nat) (iv selfPid forkRes : Int),
    g.daemonRunning = false →
    ((iv ≤ 0 →
      (start_daemon g pkg svc iv selfPid forkRes).2.config.checkIntervalMs = 3000) ∧
     (0 < iv →
      (start_daemon g pkg svc iv selfPid forkRes).2.config.checkIntervalMs = iv)) := by
  intro g pkg svc iv selfPid forkRes hg
  constructor
  · intro hiv
    have : ¬ iv > 0 := by omega
    by_cases hf : forkRes < 0 <;> simp [start_daemon, hg, hf, this]
  · intro hiv
    by_cases hf : forkRes < 0 <;> simp [start_daemon, hg, hf, hiv]

/-- Witness for C10 at a fresh state with intervals -7 (defaulted) and
250 (kept). -/
theorem C10_default_interval_witness :
    (start_daemon ⟨false, ⟨[], [], 0, 0, false, false⟩, 0⟩ [] [] (-7) 1 2).2.config.checkIntervalMs = 3000 ∧
    (start_daemon ⟨false, ⟨[], [], 0, 0, false, false⟩, 0⟩ [] [] 250 1 2).2.config.checkIntervalMs = 250 :=
  ⟨(C10_default_interval ⟨false, ⟨[], [], 0, 0, false, false⟩, 0⟩ [] [] (-7) 1 2 rfl).1
     (by decide),
   (C10_default_interval ⟨false, ⟨[], [], 0, 0, false, false⟩, 0⟩ [] [] 250 1 2 rfl).2
     (by decide)⟩

/-- A daemon-loop cycle in which the parent is found dead and all three
activation commands report non-zero exit statuses. -/
def cycleAllFail (c : DaemonCycle) : Prop :=
  c.parentAlive = false ∧ c.amPlainRet ≠ 0 ∧ c.amFgRet ≠ 0 ∧ c.broadcastRet ≠ 0

instance (c : DaemonCycle) : Decidable (cycleAllFail c) := by
  unfold cycleAllFail
  infer_instance

/-- When all three activation commands fail, the reactivation round
reports failure. -/
theorem reactivationRound_fail (p f b : Int) (hp : p ≠ 0) (hf : f ≠ 0)
    (hb : b ≠ 0) : (reactivationRound true p f b).1 = false := by
  simp [reactivationRound, start_service_via_am, start_via_broadcast, hp, hf, hb]

/-- Run of the daemon loop over all-failing cycles, for an arbitrary
starting value of the consecutive-failure counter below the maximum:
the loop gives up on the cycle that brings the counter to 3, and runs
out without giving up when too few cycles are available. -/
theorem daemonLoop_allFail_aux : ∀ (l : List DaemonCycle) (f : Nat),
    (∀ c ∈ l, cycleAllFail c) → f < 3 →
    (3 ≤ f + l.length → daemonLoop true f l = ⟨3 - f, 3, true⟩) ∧
    (f + l.length < 3 →
      daemonLoop true f l = ⟨l.length, f + l.length, false⟩) := by
  intro l
  induction l with
  | nil =>
    intro f _ hf
    constructor
    · intro h
      simp at h
      omega
    · intro _
      simp [daemonLoop]
  | cons c rest ih =>
    intro f hall hf
    obtain ⟨ha, hp, hfg, hb⟩ := hall c (List.mem_cons_self c rest)
    have hall2 : ∀ x ∈ rest, cycleAllFail x :=
      fun x hx => hall x (List.mem_cons_of_mem c hx)
    have hrr := reactivationRound_fail _ _ _ hp hfg hb
    by_cases h3 : 3 ≤ f + 1
    · have hstep : daemonCycleStep true f c = ⟨f + 1, true⟩ := by
        simp [daemonCycleStep, ha, hrr, maxConsecutiveFailures, h3]
      constructor
      · intro _
        simp only [daemonLoop, hstep]
        have hf2 : f + 1 = 3 := by omega
        simp [hf2]
        omega
      · intro hlt
        simp at hlt
        omega
    · have hstep : daemonCycleStep true f c = ⟨f + 1, false⟩ := by
        simp [daemonCycleStep, ha, hrr, maxConsecutiveFailures, h3]
      have ihh := ih (f + 1) hall2 (by omega)
      constructor
      · intro hge
        have hge2 : 3 ≤ (f + 1) + rest.length := by
          simp at hge
          omega
        have hr := ihh.1 hge2
        simp only [daemonLoop, hstep, hr]
        simp
        omega
      · intro hlt
        have hlt2 : (f + 1) + rest.length < 3 := by
          simp at hlt
          omega
        have hr := ihh.2 hlt2
        simp only [daemonLoop, hstep, hr]
        simp
        omega

/-- C2: the maximum-consecutive-failures constant is 3; starting from a
reset counter, over any run of cycles in which the parent is dead and
every activation command fails each cycle, the loop executes exactly 3
cycles and gives up — with only 1 or 2 such cycles available it does
not give up — and every cycle in which the prober confirms the parent
alive resets the consecutive-failure counter to zero. -/
theorem C2_bounded_retry :
    maxConsecutiveFailures = 3 ∧
    (∀ l : List DaemonCycle, (∀ c ∈ l, cycleAllFail c) → 3 ≤ l.length →
      daemonLoop true 0 l = ⟨3, 3, true⟩) ∧
    (∀ l : List DaemonCycle, (∀ c ∈ l, cycleAllFail c) → l.length < 3 →
      daemonLoop true 0 l = ⟨l.length, l.length, false⟩) ∧
    (∀ (useAm : Bool) (f : Nat) (c : DaemonCycle), c.parentAlive = true →
      daemonCycleStep useAm f c = ⟨0, false⟩) := by
  refine ⟨rfl, ?_, ?_, ?_⟩
  · intro l hall h3
    have h := (daemonLoop_allFail_aux l 0 hall (by omega)).1 (by omega)
    simpa using h
  · intro l hall h3
    have h := (daemonLoop_allFail_aux l 0 hall (by omega)).2 (by omega)
    simpa using h
  · intro useAm f c h
    simp [daemonCycleStep, h]

/-- Witness for C2: a three-cycle all-failing run gives up at exactly
3, a one-cycle all-failing run does not, and a cycle with the parent
alive resets a counter of 2 to 0. -/
theorem C2_bounded_retry_witness :
    daemonLoop true 0 [⟨false, 1, 1, 1⟩, ⟨false, 1, 1, 1⟩, ⟨false, 1, 1, 1⟩] =
      ⟨3, 3, true⟩ ∧
    daemonLoop true 0 [⟨false, 1, 1, 1⟩] = ⟨1, 1, false⟩ ∧
    daemonCycleStep true 2 ⟨true, 1, 1, 1⟩ = ⟨0, false⟩ :=
  ⟨C2_bounded_retry.2.1 [⟨false, 1, 1, 1⟩, ⟨false, 1, 1, 1⟩, ⟨false, 1, 1, 1⟩]
     (by decide) (by decide),
   C2_bounded_retry.2.2.1 [⟨false, 1, 1, 1⟩] (by decide) (by decide),
   C2_bounded_retry.2.2.2 true 2 ⟨true, 1, 1, 1⟩ rfl⟩

/-- C5: with the activation-command strategy enabled (as `start_daemon`
configures it), a reactivation round issues commands in the fixed order
plain activation, foreground-privileged activation, broadcast; the
foreground variant is issued exactly when the plain command failed, the
broadcast exactly when the whole activation-command strategy failed,
the first command issued is always the plain activation, and the round
succeeds exactly when one of the issued commands exited 0. -/
theorem C5_strategy_chain_order : ∀ p f b : Int,
    ((reactivationRound true p f b).1 = true ↔ (p = 0 ∨ f = 0 ∨ b = 0)) ∧
    List.Sublist (reactivationRound true p f b).2
      [AmCmd.amStartService, AmCmd.amStartForegroundService, AmCmd.amBroadcast] ∧
    ((reactivationRound true p f b).2.head? = some AmCmd.amStartService) ∧
    (AmCmd.amStartForegroundService ∈ (reactivationRound true p f b).2 ↔ p ≠ 0) ∧
    (AmCmd.amBroadcast ∈ (reactivationRound true p f b).2 ↔ (p ≠ 0 ∧ f ≠ 0)) := by
  intro p f b
  by_cases hp : p = 0 <;> by_cases hf : f = 0 <;> by_cases hb : b = 0 <;>
    simp [reactivationRound, start_service_via_am, start_via_broadcast,
      hp, hf, hb]

/-- C6, counterexample: a run in which the first receive on the peer
times out and the second delivers data — the server does not treat the
timeout as peer loss (it drops the peer on no event of this run) and
even acknowledges the later message, contradicting the claim that a
timeout closes the peer socket. -/
theorem C6_peer_loss_counterexample :
    (serverPeerLoop 1 [RecvOutcome.timeout, RecvOutcome.data 1]).dropIdx ≠ some 0 ∧
    (serverPeerLoop 1 [RecvOutcome.timeout, RecvOutcome.data 1]).dropIdx = none ∧
    (serverPeerLoop 1 [RecvOutcome.timeout, RecvOutcome.data 1]).replies = 1 := by
  decide

/-- C6, amended: the server treats the peer as lost — closing the peer
socket and returning to accept — exactly on the first receive whose
`receive_with_timeout` result is negative (a receive error or a
zero-length read); a timeout yields result 0, so it never drops the
peer and the receive loop keeps waiting on the same peer; and the
server thread processes every accepted connection, so losing a peer
never terminates the server itself. -/
theorem C6_peer_loss_amended : ∀ (client_fd : Int), 0 ≤ client_fd →
    ∀ (os : List RecvOutcome) (conns : List (List RecvOutcome)),
    (serverPeerLoop client_fd os).dropIdx = firstNegRecvIdx client_fd os ∧
    receive_with_timeout client_fd 64 RecvOutcome.timeout = 0 ∧
    (socket_server_thread client_fd conns).length = conns.length := by
  intro fd hfd os conns
  refine ⟨?_, ?_, ?_⟩
  · induction os with
    | nil => simp [serverPeerLoop, firstNegRecvIdx]
    | cons o rest ih =>
      by_cases h : receive_with_timeout fd 64 o < 0 <;>
        simp [serverPeerLoop, firstNegRecvIdx, h, ih]
  · have h : ¬ (fd < 0 ∨ (64 : Int) ≤ 0) := by omega
    simp [receive_with_timeout, h]
    omega
  · induction conns with
    | nil => rfl
    | cons cn rest ih => simp [socket_server_thread, ih]

/-- Witness for C6: the amended theorem applied at descriptor 3, a run
whose first receive reports the peer closed, and a single accepted
connection. -/
theorem C6_peer_loss_witness :
    (serverPeerLoop 3 [RecvOutcome.closed]).dropIdx =
      firstNegRecvIdx 3 [RecvOutcome.closed] ∧
    receive_with_timeout 3 64 RecvOutcome.timeout = 0 ∧
    (socket_server_thread 3 [[RecvOutcome.closed]]).length =
      [[RecvOutcome.closed]].length :=
  C6_peer_loss_amended 3 (by decide) [RecvOutcome.closed] [[RecvOutcome.closed]]

/-- C7, counterexample: a heartbeat-client cycle whose send succeeds
and whose wait for the acknowledgement times out — the claim says the
loss callback fires once and the loop exits, but the loop invokes no
callback and keeps running. -/
theorem C7_loss_callback_counterexample :
    ¬ ((heartbeatLoop 1 true [⟨1, RecvOutcome.timeout⟩]).callbacks = 1 ∧
       (heartbeatLoop 1 true [⟨1, RecvOutcome.timeout⟩]).exitedViaBreak = true) := by
  decide

/-- C7, amended: the heartbeat-client loop exits via its failure path
exactly when some cycle has a send failure or a negative receive result
(receive error or orderly close); when it so exits, the loss callback
is invoked exactly once if one is registered and never otherwise; and a
timed-out wait for the acknowledgement (receive result 0) is not a
failure — the loop continues without invoking the callback. The loop
never attempts to reconnect. -/
theorem C7_loss_callback_amended : ∀ (client_fd : Int) (cbRegistered : Bool)
    (cycles : List HbCycle),
    ((heartbeatLoop client_fd cbRegistered cycles).exitedViaBreak =
      cycles.any (hbCycleFails client_fd)) ∧
    ((heartbeatLoop client_fd cbRegistered cycles).callbacks =
      if cbRegistered = true ∧
         (heartbeatLoop client_fd cbRegistered cycles).exitedViaBreak = true
      then 1 else 0) ∧
    (0 ≤ client_fd → ∀ s : Int,
      hbCycleFails client_fd ⟨s, RecvOutcome.timeout⟩ =
        !(send_heartbeat client_fd s)) := by
  intro fd cb cycles
  refine ⟨?_, ?_, ?_⟩
  · induction cycles with
    | nil => simp [heartbeatLoop]
    | cons c rest ih =>
      cases hs : send_heartbeat fd c.sendRes with
      | false => simp [heartbeatLoop, hbCycleFails, hs]
      | true =>
        by_cases hr : receive_with_timeout fd 64 c.recvOutcome < 0 <;>
          simp [heartbeatLoop, hbCycleFails, hs, hr, ih]
  · induction cycles with
    | nil => simp [heartbeatLoop]
    | cons c rest ih =>
      cases hs : send_heartbeat fd c.sendRes with
      | false => cases cb <;> simp [heartbeatLoop, hs]
      | true =>
        by_cases hr : receive_with_timeout fd 64 c.recvOutcome < 0
        · cases cb <;> simp [heartbeatLoop, hs, hr]
        · simp [heartbeatLoop, hs, hr, ih]
  · intro hfd s
    have h2 : ¬ fd < 0 := by omega
    simp [hbCycleFails, receive_with_timeout, h2]

/-- Witness for C7: the amended theorem applied at descriptor 2, a
registered callback and a single cycle whose receive reports the peer
closed. -/
theorem C7_loss_callback_witness :
    ((heartbeatLoop 2 true [⟨1, RecvOutcome.closed⟩]).exitedViaBreak =
      List.any [⟨1, RecvOutcome.closed⟩] (hbCycleFails 2)) ∧
    ((heartbeatLoop 2 true [⟨1, RecvOutcome.closed⟩]).callbacks =
      if (true : Bool) = true ∧
         (heartbeatLoop 2 true [⟨1, RecvOutcome.closed⟩]).exitedViaBreak = true
      then 1 else 0) ∧
    hbCycleFails 2 ⟨1, RecvOutcome.timeout⟩ = !(send_heartbeat 2 1) :=
  ⟨(C7_loss_callback_amended 2 true [⟨1, RecvOutcome.closed⟩]).1,
   (C7_loss_callback_amended 2 true [⟨1, RecvOutcome.closed⟩]).2.1,
   (C7_loss_callback_amended 2 true [⟨1, RecvOutcome.closed⟩]).2.2 (by decide) 1⟩

end KeepLive
